import Mathlib

/-!
Verification development for `src/extract_pois.py` (poi-extract).

The Python source is shallowly embedded: pure functions become Lean
functions, the DuckDB cache and the CLI driver become explicit state
passing over a `CacheDb` value plus an effect trace, floating-point
distances become abstract rational-valued distance functions passed as
parameters (the pipeline never inspects them beyond ordering and
comparison), and the pandas `sort_values` call — whose default algorithm
is quicksort, unspecified beyond producing a sorted permutation — is
modelled as a parameter constrained by `SortValuesOk`.
-/

attribute [local semireducible] Rat.mul Rat.add Rat.sub Rat.inv Rat.ofScientific

namespace PoiExtract

/-- Python's substring test `needle in hay` on lists of characters:
`true` iff `needle` occurs contiguously inside `hay`. -/
def substrOf (needle hay : List Char) : Bool :=
  decide (List.IsInfix needle hay)

/-- Python's `str.lower()` restricted to the ASCII case mapping, as a list
of characters (all keywords in the source are ASCII). -/
def str_lower (s : String) : List Char :=
  s.toList.map Char.toLower

/-- The `any(x in category for x in [...])` pattern of `categorize_place`. -/
def keyword_match (category : List Char) (kws : List String) : Bool :=
  kws.any (fun x => substrOf x.toList category)

def residential_keywords : List String :=
  ["residential", "apartment", "housing", "home", "condominium", "holiday_rental"]

def commercial_keywords : List String :=
  ["office", "business", "commercial", "company", "corporate", "professional_services", "real_estate"]

def restaurant_keywords : List String :=
  ["restaurant", "cafe", "coffee", "food", "dining", "bakery", "bar", "pub", "fast_food",
   "eatery", "pizza", "burger", "seafood", "indian", "chinese", "sushi", "steakhouse",
   "buffet", "diner", "bistro", "gastropub", "ice_cream", "dessert", "smoothie", "juice", "tea"]

def retail_keywords : List String :=
  ["shop", "store", "retail", "mall", "market", "boutique", "supermarket", "clothing",
   "jewelry", "furniture", "electronics", "mobile_phone", "cosmetic", "beauty_supplies",
   "shoe", "wholesale", "department_store", "convenience"]

def healthcare_keywords : List String :=
  ["hospital", "clinic", "medical", "pharmacy", "health", "doctor", "dentist", "dental",
   "surgeon", "diagnostic", "therapy", "wellness"]

def education_keywords : List String :=
  ["school", "university", "college", "education", "library", "training", "preschool",
   "tutoring", "language_school"]

def entertainment_keywords : List String :=
  ["entertainment", "cinema", "theater", "museum", "park", "recreation", "sport", "gym",
   "beach", "amusement", "club", "dance", "yoga", "fitness", "pool", "arcade"]

def hotel_keywords : List String :=
  ["hotel", "accommodation", "lodge", "hostel", "motel", "resort", "guest_house",
   "bed_and_breakfast"]

def transportation_keywords : List String :=
  ["transport", "station", "airport", "parking", "fuel", "gas_station", "car_rental",
   "automotive", "car_dealer", "bus", "metro", "taxi"]

def religious_keywords : List String :=
  ["mosque", "church", "temple", "religious", "worship", "cathedral"]

def beauty_keywords : List String :=
  ["salon", "spa", "beauty", "barber", "massage", "nail", "hair", "cosmetic"]

def services_keywords : List String :=
  ["service", "agency", "travel", "tour", "event", "marketing", "advertising", "cleaning",
   "printing", "lawyer", "financial", "insurance", "banking"]

def landmark_keywords : List String :=
  ["landmark", "monument", "historical", "tourism", "attraction"]

/-- `categorize_place` from `src/extract_pois.py` (lines 24-84): a chain of
substring checks over the lower-cased label, in the source's order; `none`
models a missing (`pd.isna`) label. -/
def categorize_place (category : Option String) : String :=
  match category with
  | none => "other"
  | some c =>
    let category := str_lower c
    if keyword_match category residential_keywords then "residential"
    else if keyword_match category commercial_keywords then "commercial"
    else if keyword_match category restaurant_keywords then "restaurant"
    else if keyword_match category retail_keywords then "retail"
    else if keyword_match category healthcare_keywords then "healthcare"
    else if keyword_match category education_keywords then "education"
    else if keyword_match category entertainment_keywords then "entertainment"
    else if keyword_match category hotel_keywords then "hotel"
    else if keyword_match category transportation_keywords then "transportation"
    else if keyword_match category religious_keywords then "religious"
    else if keyword_match category beauty_keywords then "beauty_personal_care"
    else if keyword_match category services_keywords then "services"
    else if keyword_match category landmark_keywords then "landmark"
    else "other"

/-- The classifier's rule table in the fixed priority order of the source. -/
def category_rules : List (String × List String) :=
  [("residential", residential_keywords),
   ("commercial", commercial_keywords),
   ("restaurant", restaurant_keywords),
   ("retail", retail_keywords),
   ("healthcare", healthcare_keywords),
   ("education", education_keywords),
   ("entertainment", entertainment_keywords),
   ("hotel", hotel_keywords),
   ("transportation", transportation_keywords),
   ("religious", religious_keywords),
   ("beauty_personal_care", beauty_keywords),
   ("services", services_keywords),
   ("landmark", landmark_keywords)]

/-- Specification-side classifier: the first rule of `category_rules` whose
keyword set contains a substring of the lower-cased label wins; absent label
or no match gives `"other"`. -/
def classify_by_rules (category : Option String) : String :=
  match category with
  | none => "other"
  | some c =>
    match category_rules.find? (fun r => keyword_match (str_lower c) r.2) with
    | some r => r.1
    | none => "other"

example : categorize_place (some "fast_food_restaurant") = "restaurant" := by decide

example : categorize_place (some "unknown_weird_label") = "other" := by decide

theorem substrOf_iff {n h : List Char} : substrOf n h = true ↔ List.IsInfix n h := by
  simp [substrOf]

theorem substrOf_trans {a b c : List Char} (h1 : substrOf a b = true)
    (h2 : substrOf b c = true) : substrOf a c = true :=
  substrOf_iff.mpr (List.IsInfix.trans (substrOf_iff.mp h1) (substrOf_iff.mp h2))

theorem substrOf_refl (s : List Char) : substrOf s s = true :=
  substrOf_iff.mpr ⟨[], [], by simp⟩

theorem keyword_match_of_mem {cat : List Char} {kws : List String} {x : String}
    (hm : x ∈ kws) (hs : substrOf x.toList cat = true) :
    keyword_match cat kws = true :=
  List.any_eq_true.mpr ⟨x, hm, hs⟩

set_option maxHeartbeats 1000000 in
/-- C2: `categorize_place` is deterministic and priority-order-respecting: it
equals the classifier that scans the rule table `category_rules` (residential,
commercial, restaurant, retail, healthcare, education, entertainment, hotel,
transportation, religious, beauty_personal_care, services, landmark, in this
order) and returns the first category one of whose keywords is a substring of
the lower-cased label, and `"other"` for an absent or unmatched label. -/
theorem c2_classifier_priority_order (c : Option String) :
    categorize_place c = classify_by_rules c := by
  cases c with
  | none => rfl
  | some s =>
    unfold categorize_place classify_by_rules category_rules
    simp only [List.find?]
    cases h1 : keyword_match (str_lower s) residential_keywords with
    | true => simp [h1]
    | false =>
      simp only [h1, Bool.false_eq_true, if_false]
      cases h2 : keyword_match (str_lower s) commercial_keywords with
      | true => simp [h2]
      | false =>
        simp only [h2, Bool.false_eq_true, if_false]
        cases h3 : keyword_match (str_lower s) restaurant_keywords with
        | true => simp [h3]
        | false =>
          simp only [h3, Bool.false_eq_true, if_false]
          cases h4 : keyword_match (str_lower s) retail_keywords with
          | true => simp [h4]
          | false =>
            simp only [h4, Bool.false_eq_true, if_false]
            cases h5 : keyword_match (str_lower s) healthcare_keywords with
            | true => simp [h5]
            | false =>
              simp only [h5, Bool.false_eq_true, if_false]
              cases h6 : keyword_match (str_lower s) education_keywords with
              | true => simp [h6]
              | false =>
                simp only [h6, Bool.false_eq_true, if_false]
                cases h7 : keyword_match (str_lower s) entertainment_keywords with
                | true => simp [h7]
                | false =>
                  simp only [h7, Bool.false_eq_true, if_false]
                  cases h8 : keyword_match (str_lower s) hotel_keywords with
                  | true => simp [h8]
                  | false =>
                    simp only [h8, Bool.false_eq_true, if_false]
                    cases h9 : keyword_match (str_lower s) transportation_keywords with
                    | true => simp [h9]
                    | false =>
                      simp only [h9, Bool.false_eq_true, if_false]
                      cases h10 : keyword_match (str_lower s) religious_keywords with
                      | true => simp [h10]
                      | false =>
                        simp only [h10, Bool.false_eq_true, if_false]
                        cases h11 : keyword_match (str_lower s) beauty_keywords with
                        | true => simp [h11]
                        | false =>
                          simp only [h11, Bool.false_eq_true, if_false]
                          cases h12 : keyword_match (str_lower s) services_keywords with
                          | true => simp [h12]
                          | false =>
                            simp only [h12, Bool.false_eq_true, if_false]
                            cases h13 : keyword_match (str_lower s) landmark_keywords with
                            | true => simp [h13]
                            | false =>
                              simp only [h13, Bool.false_eq_true, if_false]

/-- C9: the beauty_personal_care keywords "barber" and "cosmetic" can never
decide the classifier: a label containing "barber" also contains "bar" and is
claimed by the restaurant rule or an earlier one; a label containing
"cosmetic" is claimed by the retail rule (which also lists "cosmetic") or an
earlier one; and whenever the classifier does return "beauty_personal_care",
one of the six other beauty keywords matched. -/
theorem c9_barber_cosmetic_subsumed (s : String) :
    (substrOf "barber".toList (str_lower s) = true →
      categorize_place (some s) ∈ (["residential", "commercial", "restaurant"] : List String)) ∧
    (substrOf "cosmetic".toList (str_lower s) = true →
      categorize_place (some s) ∈
        (["residential", "commercial", "restaurant", "retail"] : List String)) ∧
    (categorize_place (some s) = "beauty_personal_care" →
      (["salon", "spa", "beauty", "massage", "nail", "hair"].any
        (fun k => substrOf k.toList (str_lower s))) = true) := by
  refine ⟨?_, ?_, ?_⟩
  · intro hb
    have hbar : substrOf "bar".toList (str_lower s) = true :=
      substrOf_trans (by decide) hb
    have hr : keyword_match (str_lower s) restaurant_keywords = true :=
      keyword_match_of_mem (by simp [restaurant_keywords]) hbar
    unfold categorize_place
    cases h1 : keyword_match (str_lower s) residential_keywords with
    | true => simp [h1]
    | false =>
      cases h2 : keyword_match (str_lower s) commercial_keywords with
      | true => simp [h1, h2]
      | false => simp [h1, h2, hr]
  · intro hc
    have hret : keyword_match (str_lower s) retail_keywords = true :=
      keyword_match_of_mem (by simp [retail_keywords]) hc
    unfold categorize_place
    cases h1 : keyword_match (str_lower s) residential_keywords with
    | true => simp [h1]
    | false =>
      cases h2 : keyword_match (str_lower s) commercial_keywords with
      | true => simp [h1, h2]
      | false =>
        cases h3 : keyword_match (str_lower s) restaurant_keywords with
        | true => simp [h1, h2, h3]
        | false => simp [h1, h2, h3, hret]
  · intro hbe
    simp only [categorize_place] at hbe
    by_cases h1 : keyword_match (str_lower s) residential_keywords = true
    · rw [if_pos h1] at hbe; exact absurd hbe (by decide)
    rw [if_neg h1] at hbe
    by_cases h2 : keyword_match (str_lower s) commercial_keywords = true
    · rw [if_pos h2] at hbe; exact absurd hbe (by decide)
    rw [if_neg h2] at hbe
    by_cases h3 : keyword_match (str_lower s) restaurant_keywords = true
    · rw [if_pos h3] at hbe; exact absurd hbe (by decide)
    rw [if_neg h3] at hbe
    by_cases h4 : keyword_match (str_lower s) retail_keywords = true
    · rw [if_pos h4] at hbe; exact absurd hbe (by decide)
    rw [if_neg h4] at hbe
    by_cases h5 : keyword_match (str_lower s) healthcare_keywords = true
    · rw [if_pos h5] at hbe; exact absurd hbe (by decide)
    rw [if_neg h5] at hbe
    by_cases h6 : keyword_match (str_lower s) education_keywords = true
    · rw [if_pos h6] at hbe; exact absurd hbe (by decide)
    rw [if_neg h6] at hbe
    by_cases h7 : keyword_match (str_lower s) entertainment_keywords = true
    · rw [if_pos h7] at hbe; exact absurd hbe (by decide)
    rw [if_neg h7] at hbe
    by_cases h8 : keyword_match (str_lower s) hotel_keywords = true
    · rw [if_pos h8] at hbe; exact absurd hbe (by decide)
    rw [if_neg h8] at hbe
    by_cases h9 : keyword_match (str_lower s) transportation_keywords = true
    · rw [if_pos h9] at hbe; exact absurd hbe (by decide)
    rw [if_neg h9] at hbe
    by_cases h10 : keyword_match (str_lower s) religious_keywords = true
    · rw [if_pos h10] at hbe; exact absurd hbe (by decide)
    rw [if_neg h10] at hbe
    by_cases h11 : keyword_match (str_lower s) beauty_keywords = true
    · rcases List.any_eq_true.mp h11 with ⟨x, hxmem, hx⟩
      simp only [beauty_keywords, List.mem_cons, List.not_mem_nil, or_false] at hxmem
      rcases hxmem with rfl | rfl | rfl | rfl | rfl | rfl | rfl | rfl
      · exact List.any_eq_true.mpr ⟨"salon", by simp, hx⟩
      · exact List.any_eq_true.mpr ⟨"spa", by simp, hx⟩
      · exact List.any_eq_true.mpr ⟨"beauty", by simp, hx⟩
      · exact absurd (keyword_match_of_mem (x := "bar") (by simp [restaurant_keywords])
          (substrOf_trans (by decide) hx)) h3
      · exact List.any_eq_true.mpr ⟨"massage", by simp, hx⟩
      · exact List.any_eq_true.mpr ⟨"nail", by simp, hx⟩
      · exact List.any_eq_true.mpr ⟨"hair", by simp, hx⟩
      · exact absurd (keyword_match_of_mem (x := "cosmetic") (by simp [retail_keywords]) hx) h4
    rw [if_neg h11] at hbe
    by_cases h12 : keyword_match (str_lower s) services_keywords = true
    · rw [if_pos h12] at hbe; exact absurd hbe (by decide)
    rw [if_neg h12] at hbe
    by_cases h13 : keyword_match (str_lower s) landmark_keywords = true
    · rw [if_pos h13] at hbe; exact absurd hbe (by decide)
    rw [if_neg h13] at hbe
    exact absurd hbe (by decide)

/-- Witness for C9 at concrete labels: "barbershop" contains "barber" and is
classified "restaurant"; "nail_salon" is classified "beauty_personal_care" and
indeed one of the six effective beauty keywords ("nail", "salon") matches. -/
theorem c9_barber_cosmetic_subsumed_witness :
    substrOf "barber".toList (str_lower "barbershop") = true ∧
    categorize_place (some "barbershop") ∈
      (["residential", "commercial", "restaurant"] : List String) ∧
    categorize_place (some "nail_salon") = "beauty_personal_care" ∧
    (["salon", "spa", "beauty", "massage", "nail", "hair"].any
      (fun k => substrOf k.toList (str_lower "nail_salon"))) = true :=
  ⟨by decide, (c9_barber_cosmetic_subsumed "barbershop").1 (by decide), by decide,
    (c9_barber_cosmetic_subsumed "nail_salon").2.2 (by decide)⟩


/-- A point record as cached in the `dubai_places` table: id, primary name,
primary category, alternate categories, and the point geometry's coordinates
(`geom.y` is the latitude, `geom.x` the longitude). Coordinates and distances
are modelled as rationals. -/
structure RawPlace where
  id : String
  primary_name : Option String
  primary_category : Option String
  alternate_categories : List String
  lat : ℚ
  lon : ℚ
deriving Repr, DecidableEq

/-- A record of the remote Overture dataset: a `RawPlace` plus the `bbox`
struct columns used by the bulk query's WHERE clause. -/
structure RemotePlace where
  place : RawPlace
  xmin : ℚ
  xmax : ℚ
  ymin : ℚ
  ymax : ℚ
deriving Repr, DecidableEq

/-- The fixed bounding-region predicate of the bulk query
(`bbox.xmin >= 54.9 and bbox.xmax <= 55.6 and bbox.ymin >= 24.7 and
bbox.ymax <= 25.4`). -/
def bbox_ok (r : RemotePlace) : Bool :=
  decide (549/10 ≤ r.xmin) && decide (r.xmax ≤ 556/10) &&
    decide (247/10 ≤ r.ymin) && decide (r.ymax ≤ 254/10)

/-- An output row of the pipeline: a place plus the derived columns added by
`extract_nearby_places`. -/
structure Row where
  place : RawPlace
  euclidean_m : ℚ
  haversine_m : ℚ
  euclidean_km : ℚ
  haversine_km : ℚ
  master_category : String
deriving Repr, DecidableEq

/-- Rounding half to even, as numpy's `round` used by pandas `.round(2)`. -/
def roundHalfEven (q : ℚ) : ℤ :=
  let f := ⌊q⌋
  if q - f < 1/2 then f
  else if 1/2 < q - f then f + 1
  else if 2 ∣ f then f else f + 1

/-- The `.round(2)` applied to the kilometer columns. -/
def round2 (q : ℚ) : ℚ :=
  (roundHalfEven (q * 100) : ℚ) / 100

/-- Per-row derived columns of `extract_nearby_places`. The two distance
metrics are abstract functions `hav` (geodesic, `geopy.distance.geodesic`)
and `euc` (planar distance after reprojection to EPSG:3857) of the place;
the pipeline only compares and carries their values. The source interleaves
these per-row annotations around the filter and sort steps; they are
per-row pure maps, so they are gathered here. -/
def annotate_place (hav euc : RawPlace → ℚ) (p : RawPlace) : Row :=
  { place := p
    euclidean_m := euc p
    haversine_m := hav p
    euclidean_km := round2 (euc p / 1000)
    haversine_km := round2 (hav p / 1000)
    master_category := categorize_place p.primary_category }

/-- The in-memory part of `extract_nearby_places` (lines 176-207): annotate
every cached place with both distances, keep the rows whose geodesic
distance is at most `radius_km * 1000`, and sort by `haversine_m` with
pandas `sort_values` — modelled by the parameter `sortFn`, since the
source's sort algorithm (numpy quicksort) is unspecified beyond producing
a sorted permutation (see `SortValuesOk`). -/
def pipeline (hav euc : RawPlace → ℚ) (sortFn : List Row → List Row)
    (radius_km : ℚ) (dubai_places : List RawPlace) : List Row :=
  let gdf := dubai_places.map (annotate_place hav euc)
  let nearby := gdf.filter (fun r => decide (r.haversine_m ≤ radius_km * 1000))
  sortFn nearby

/-- Everything pandas `sort_values('haversine_m')` guarantees about its
result: it is a permutation of the input that is sorted by non-decreasing
`haversine_m`. The default `kind` is quicksort, which is documented as not
stable, so nothing about the relative order of equal keys is assumed. -/
def SortValuesOk (f : List Row → List Row) : Prop :=
  ∀ l : List Row, List.Perm (f l) l ∧
    List.Pairwise (fun a b : Row => a.haversine_m ≤ b.haversine_m) (f l)

/-- Comparison by the `haversine_m` column. -/
def havRel (a b : Row) : Prop :=
  a.haversine_m ≤ b.haversine_m

instance : DecidableRel havRel :=
  fun a b => inferInstanceAs (Decidable (a.haversine_m ≤ b.haversine_m))

instance : IsTotal Row havRel :=
  ⟨fun a b => le_total a.haversine_m b.haversine_m⟩

instance : IsTrans Row havRel :=
  ⟨fun _ _ _ h1 h2 => le_trans h1 h2⟩

/-- A sorting function satisfying `SortValuesOk`: stable insertion sort. -/
def stdSort (l : List Row) : List Row :=
  List.insertionSort havRel l

/-- Another sorting function satisfying `SortValuesOk`: insertion sort
applied to the reversed input, which reverses the relative order of rows
with equal `haversine_m`. -/
def tieRevSort (l : List Row) : List Row :=
  List.insertionSort havRel l.reverse

/-- The category -> count observability summary
(`nearby['master_category'].value_counts()`). Pandas additionally orders the
pairs by descending count; the claims only inspect emptiness, so the pair
order is left as first occurrence. -/
def value_counts (rows : List Row) : List (String × Nat) :=
  ((rows.map Row.master_category).dedup).map
    (fun c => (c, (rows.filter (fun r => r.master_category == c)).length))

/-- The CSV header of the output file: `output_columns` of `main`. -/
def csv_header : List String :=
  ["id", "primary_name", "primary_category", "master_category", "lat", "lon",
   "haversine_km", "haversine_m", "euclidean_km", "euclidean_m", "alternate_categories"]

/-- An optional text cell; pandas writes an empty cell for a missing value. -/
def csv_cell : Option String → String
  | none => ""
  | some s => s

/-- One CSV data row, in the column order of `output_columns`. -/
def csv_row (r : Row) : List String :=
  [r.place.id, csv_cell r.place.primary_name, csv_cell r.place.primary_category,
   r.master_category, toString r.place.lat, toString r.place.lon,
   toString r.haversine_km, toString r.haversine_m,
   toString r.euclidean_km, toString r.euclidean_m,
   toString r.place.alternate_categories]

/-- `output_df.to_csv`: the header row followed by one row per place. -/
def to_csv (rows : List Row) : List (List String) :=
  csv_header :: rows.map csv_row

/-- The DuckDB database file: a set of named tables. -/
structure CacheDb where
  tables : List (String × List RawPlace)
deriving Repr, DecidableEq

/-- `CREATE OR REPLACE TABLE name`: replace the table of that name, keep all
others. -/
def setTable (tables : List (String × List RawPlace)) (name : String)
    (rows : List RawPlace) : List (String × List RawPlace) :=
  (name, rows) :: tables.filter (fun t => t.1 != name)

/-- `SELECT * FROM name`, failing when the table does not exist. -/
def getTable (db : CacheDb) (name : String) : Option (List RawPlace) :=
  db.tables.lookup name

/-- The `has_data` check of `load_overture_data` (line 101):
`any('dubai_places' in str(t) for t in SHOW TABLES)`. -/
def has_dubai_places (db : CacheDb) : Bool :=
  db.tables.any (fun t => substrOf "dubai_places".toList t.1.toList)

/-- Observable side effects of a run, in order of occurrence. -/
inductive Effect where
  | remoteFetch : Effect
  | deleteFile : String → Effect
  | writeFile : String → Effect
deriving Repr, DecidableEq

/-- Result of `load_overture_data`: whether it returned normally, the
on-disk database afterwards (`duckdb.connect` materializes the file even
when it was absent), and the effect trace. -/
structure LoadResult where
  ok : Bool
  db : CacheDb
  effects : List Effect
deriving Repr, DecidableEq

/-- `load_overture_data` (lines 87-144): connect to the cache file; if the
`dubai_places` table is present and no reload is forced, return with no
remote interaction; otherwise bulk-fetch the remote dataset restricted to
the fixed bounding region and persist it as `dubai_places`. A failing
remote fetch (`fetchOk = false`) aborts with the table not committed. -/
def load_overture_data (stored : Option CacheDb) (force_reload : Bool)
    (remote : List RemotePlace) (fetchOk : Bool) : LoadResult :=
  let con := stored.getD ⟨[]⟩
  if has_dubai_places con && !force_reload then
    ⟨true, con, []⟩
  else if fetchOk then
    ⟨true, ⟨setTable con.tables "dubai_places" ((remote.filter bbox_ok).map RemotePlace.place)⟩,
      [Effect.remoteFetch]⟩
  else
    ⟨false, con, [Effect.remoteFetch]⟩

/-- Result of `extract_nearby_places` / `main`: success flag, output rows,
final database state, effect trace. -/
structure ExtractResult where
  ok : Bool
  rows : List Row
  db : CacheDb
  effects : List Effect
deriving Repr, DecidableEq

/-- `extract_nearby_places` (lines 153-207): load the cache (never passing
`force_reload`, which defaults to false), read the whole `dubai_places`
table, and run the in-memory pipeline. -/
def extract_nearby_places (hav euc : RawPlace → ℚ) (sortFn : List Row → List Row)
    (radius_km : ℚ) (stored : Option CacheDb) (remote : List RemotePlace)
    (fetchOk : Bool) : ExtractResult :=
  let lr := load_overture_data stored false remote fetchOk
  if lr.ok then
    match getTable lr.db "dubai_places" with
    | some dubai_places =>
      ⟨true, pipeline hav euc sortFn radius_km dubai_places, lr.db, lr.effects⟩
    | none => ⟨false, [], lr.db, lr.effects⟩
  else ⟨false, [], lr.db, lr.effects⟩

/-- The CLI arguments of `main` after parsing. `s3_path` only renames the
remote source, which is already a parameter, so it is omitted. -/
structure Args where
  latitude : ℚ
  longitude : ℚ
  radius : ℚ
  output : String
  database : String
  reload : Bool
deriving Repr, DecidableEq

/-- Outcome of one `main` run: process exit code, the written output file
(path and CSV contents) if any, the final on-disk cache state, and the
effect trace. -/
structure MainOutcome where
  exitCode : Nat
  written : Option (String × List (List String))
  finalDb : Option CacheDb
  effects : List Effect
deriving Repr, DecidableEq

/-- `main` (lines 210-288): validate latitude, longitude and radius before
anything else; on `--reload` delete an existing cache file; run the
extraction; on success write the CSV and exit 0, on any failure exit 1
with nothing written. -/
def main_run (hav euc : RawPlace → ℚ) (sortFn : List Row → List Row)
    (args : Args) (stored : Option CacheDb) (remote : List RemotePlace)
    (fetchOk : Bool) : MainOutcome :=
  if ¬(-90 ≤ args.latitude ∧ args.latitude ≤ 90) then ⟨1, none, stored, []⟩
  else if ¬(-180 ≤ args.longitude ∧ args.longitude ≤ 180) then ⟨1, none, stored, []⟩
  else if args.radius ≤ 0 then ⟨1, none, stored, []⟩
  else
    let delEffs : List Effect :=
      if args.reload ∧ stored.isSome then [Effect.deleteFile args.database] else []
    let stored1 : Option CacheDb := if args.reload then none else stored
    let er := extract_nearby_places hav euc sortFn args.radius stored1 remote fetchOk
    if er.ok then
      ⟨0, some (args.output, to_csv er.rows), some er.db,
        delEffs ++ er.effects ++ [Effect.writeFile args.output]⟩
    else
      ⟨1, none, some er.db, delEffs ++ er.effects⟩


theorem stdSort_ok : SortValuesOk stdSort := by
  intro l
  exact ⟨List.perm_insertionSort havRel l, List.sorted_insertionSort havRel l⟩

theorem tieRevSort_ok : SortValuesOk tieRevSort := by
  intro l
  refine ⟨?_, List.sorted_insertionSort havRel l.reverse⟩
  exact (List.perm_insertionSort havRel l.reverse).trans (List.reverse_perm l)

/-- A first fixture place. -/
def placeA : RawPlace := ⟨"A", some "A cafe", some "cafe", [], 25, 55⟩

/-- A second fixture place, distinct from `placeA`, at the same position. -/
def placeB : RawPlace := ⟨"B", some "B bakery", some "bakery", [], 25, 55⟩

/-- A fixture geodesic distance: both places are 5000 m from the target. -/
def havConst : RawPlace → ℚ := fun _ => 5000

/-- A fixture projected distance. -/
def eucConst : RawPlace → ℚ := fun _ => 6000

/-- C1 counterexample: the claim also asserts stability — that equal
`haversine_m` rows keep their original dataset order. The source sorts with
pandas `sort_values('haversine_m')` whose default quicksort guarantees only
a sorted permutation, and a sorted-permutation-producing function
(`tieRevSort`) applied to a two-row tied input emits the rows in reversed
order; hence stability does not follow from the code. -/
theorem c1_stability_counterexample :
    SortValuesOk tieRevSort ∧
    pipeline havConst eucConst tieRevSort 20 [placeA, placeB] =
      [annotate_place havConst eucConst placeB, annotate_place havConst eucConst placeA] ∧
    annotate_place havConst eucConst placeA ≠ annotate_place havConst eucConst placeB :=
  ⟨tieRevSort_ok, by decide, by decide⟩

/-- C1 (amended): the output rows are sorted by non-decreasing `haversine_m`
and form a permutation of the retained (in-radius) rows, for every sorting
function with the guarantees of pandas `sort_values`; the relative order of
equal-distance rows is unspecified. -/
theorem c1_sorted_output (hav euc : RawPlace → ℚ) (sortFn : List Row → List Row)
    (hs : SortValuesOk sortFn) (radius_km : ℚ) (table : List RawPlace) :
    List.Pairwise (fun a b : Row => a.haversine_m ≤ b.haversine_m)
      (pipeline hav euc sortFn radius_km table) ∧
    List.Perm (pipeline hav euc sortFn radius_km table)
      ((table.map (annotate_place hav euc)).filter
        (fun r => decide (r.haversine_m ≤ radius_km * 1000))) := by
  unfold pipeline
  exact ⟨(hs _).2, (hs _).1⟩

/-- Witness for C1 (amended) at a concrete run. -/
theorem c1_sorted_output_witness :
    List.Pairwise (fun a b : Row => a.haversine_m ≤ b.haversine_m)
      (pipeline havConst eucConst stdSort 20 [placeA, placeB]) ∧
    List.Perm (pipeline havConst eucConst stdSort 20 [placeA, placeB])
      (([placeA, placeB].map (annotate_place havConst eucConst)).filter
        (fun r => decide (r.haversine_m ≤ (20 : ℚ) * 1000))) :=
  c1_sorted_output havConst eucConst stdSort stdSort_ok 20 [placeA, placeB]

/-- C3: a cached point appears in the pipeline's output iff its geodesic
distance is at most `radius_km * 1000` meters, and every output row's
`haversine_m` is at most `radius_km * 1000`; the retained set depends on the
geodesic metric `hav` only — the projected metric `euc` is universally
quantified and does not occur in the bound. -/
theorem c3_radius_filter_geodesic (hav euc : RawPlace → ℚ) (sortFn : List Row → List Row)
    (hs : SortValuesOk sortFn) (radius_km : ℚ) (table : List RawPlace) :
    (∀ r ∈ pipeline hav euc sortFn radius_km table, r.haversine_m ≤ radius_km * 1000) ∧
    (∀ p ∈ table, (∃ r ∈ pipeline hav euc sortFn radius_km table, r.place = p) ↔
      hav p ≤ radius_km * 1000) := by
  have hperm : List.Perm (pipeline hav euc sortFn radius_km table)
      ((table.map (annotate_place hav euc)).filter
        (fun r => decide (r.haversine_m ≤ radius_km * 1000))) := by
    unfold pipeline
    exact (hs _).1
  constructor
  · intro r hr
    have hr2 := hperm.mem_iff.mp hr
    have := (List.mem_filter.mp hr2).2
    simpa using this
  · intro p hp
    constructor
    · rintro ⟨r, hr, hrp⟩
      have hr2 := hperm.mem_iff.mp hr
      obtain ⟨hmem, hcond⟩ := List.mem_filter.mp hr2
      obtain ⟨q, hq, rfl⟩ := List.mem_map.mp hmem
      have hqp : q = p := hrp
      subst hqp
      simpa [annotate_place] using hcond
    · intro hdist
      refine ⟨annotate_place hav euc p, ?_, rfl⟩
      apply hperm.mem_iff.mpr
      apply List.mem_filter.mpr
      exact ⟨List.mem_map_of_mem _ hp, by simpa [annotate_place] using hdist⟩

/-- Witness for C3 at a concrete run: `placeA` is within 20 km. -/
theorem c3_radius_filter_geodesic_witness :
    (∀ r ∈ pipeline havConst eucConst stdSort 20 [placeA], r.haversine_m ≤ (20 : ℚ) * 1000) ∧
    (∀ p ∈ [placeA], (∃ r ∈ pipeline havConst eucConst stdSort 20 [placeA], r.place = p) ↔
      havConst p ≤ (20 : ℚ) * 1000) :=
  c3_radius_filter_geodesic havConst eucConst stdSort stdSort_ok 20 [placeA]


theorem any_name_of_lookup {l : List (String × List RawPlace)} {n : String}
    {v : List RawPlace} (h : l.lookup n = some v) :
    l.any (fun t => substrOf n.toList t.1.toList) = true := by
  induction l with
  | nil => simp [List.lookup] at h
  | cons t ts ih =>
    obtain ⟨k, w⟩ := t
    rw [List.lookup] at h
    cases hk : n == k with
    | true =>
      have hnk : n = k := eq_of_beq hk
      subst hnk
      simp [substrOf_refl]
    | false =>
      rw [hk] at h
      simp only [List.any_cons, Bool.or_eq_true]
      exact Or.inr (ih h)

theorem has_dubai_places_of_getTable {db : CacheDb} {tbl : List RawPlace}
    (htbl : getTable db "dubai_places" = some tbl) :
    has_dubai_places db = true := by
  unfold getTable at htbl
  unfold has_dubai_places
  exact any_name_of_lookup htbl

theorem extract_ready (hav euc : RawPlace → ℚ) (sortFn : List Row → List Row)
    (radius_km : ℚ) (db : CacheDb) (tbl : List RawPlace) (remote : List RemotePlace)
    (fetchOk : Bool) (htbl : getTable db "dubai_places" = some tbl) :
    extract_nearby_places hav euc sortFn radius_km (some db) remote fetchOk =
      ⟨true, pipeline hav euc sortFn radius_km tbl, db, []⟩ := by
  have hhas := has_dubai_places_of_getTable htbl
  unfold extract_nearby_places load_overture_data
  simp [hhas, htbl]

theorem main_run_invalid (hav euc : RawPlace → ℚ) (sortFn : List Row → List Row)
    (args : Args) (stored : Option CacheDb) (remote : List RemotePlace) (fetchOk : Bool)
    (h : ¬(-90 ≤ args.latitude ∧ args.latitude ≤ 90) ∨
      ¬(-180 ≤ args.longitude ∧ args.longitude ≤ 180) ∨ args.radius ≤ 0) :
    main_run hav euc sortFn args stored remote fetchOk = ⟨1, none, stored, []⟩ := by
  unfold main_run
  by_cases h1 : ¬(-90 ≤ args.latitude ∧ args.latitude ≤ 90)
  · rw [if_pos h1]
  rw [if_neg h1]
  by_cases h2 : ¬(-180 ≤ args.longitude ∧ args.longitude ≤ 180)
  · rw [if_pos h2]
  rw [if_neg h2]
  by_cases h3 : args.radius ≤ 0
  · rw [if_pos h3]
  rcases h with h | h | h
  · exact absurd h h1
  · exact absurd h h2
  · exact absurd h h3

theorem main_run_ready (hav euc : RawPlace → ℚ) (sortFn : List Row → List Row)
    (args : Args) (db : CacheDb) (tbl : List RawPlace) (remote : List RemotePlace)
    (fetchOk : Bool)
    (hlat : -90 ≤ args.latitude ∧ args.latitude ≤ 90)
    (hlon : -180 ≤ args.longitude ∧ args.longitude ≤ 180)
    (hrad : 0 < args.radius) (hrel : args.reload = false)
    (htbl : getTable db "dubai_places" = some tbl) :
    main_run hav euc sortFn args (some db) remote fetchOk =
      ⟨0, some (args.output, to_csv (pipeline hav euc sortFn args.radius tbl)),
        some db, [Effect.writeFile args.output]⟩ := by
  have he := extract_ready hav euc sortFn args.radius db tbl remote fetchOk htbl
  unfold main_run
  rw [if_neg (not_not_intro hlat), if_neg (not_not_intro hlon), if_neg (not_le.mpr hrad)]
  simp [hrel, he]

theorem pipeline_eq_nil (hav euc : RawPlace → ℚ) (sortFn : List Row → List Row)
    (hs : SortValuesOk sortFn) (radius_km : ℚ) (table : List RawPlace)
    (h : ∀ p ∈ table, ¬ hav p ≤ radius_km * 1000) :
    pipeline hav euc sortFn radius_km table = [] := by
  simp only [pipeline]
  have hfil : (table.map (annotate_place hav euc)).filter
      (fun r => decide (r.haversine_m ≤ radius_km * 1000)) = [] := by
    rw [List.filter_eq_nil_iff]
    intro r hr
    obtain ⟨p, hp, rfl⟩ := List.mem_map.mp hr
    simpa [annotate_place] using h p hp
  rw [hfil]
  exact ((hs []).1).eq_nil

/-- The cache fixture: a database whose `dubai_places` table holds the two
fixture places. -/
def dbReady : CacheDb := ⟨[("dubai_places", [placeA, placeB])]⟩

/-- A remote record inside the fixed bounding region. -/
def remoteIn : RemotePlace := ⟨placeA, 55, 55.5, 25, 25.25⟩

/-- A remote record outside the fixed bounding region. -/
def remoteOut : RemotePlace := ⟨placeB, 50, 51, 25, 25.25⟩

/-- Valid CLI arguments fixture (the spec's example coordinates). -/
def argsOk : Args :=
  ⟨25.166974, 55.259068, 20, "nearby_places.csv", "overture_dubai.duckdb", false⟩

/-- CLI arguments with the invalid latitude 95 of the spec's scenario. -/
def argsBadLat : Args :=
  ⟨95, 55.259068, 20, "nearby_places.csv", "overture_dubai.duckdb", false⟩

/-- Valid CLI arguments with `--reload`. -/
def argsReload : Args :=
  ⟨25.166974, 55.259068, 20, "nearby_places.csv", "overture_dubai.duckdb", true⟩

/-- C4: an out-of-range latitude or longitude or a non-positive radius makes
the run exit with code 1, write no output file, leave the stored cache
untouched and perform no effect at all (no cache deletion, no remote fetch,
no file write) — validation precedes every form of I/O. -/
theorem c4_validation_before_io (hav euc : RawPlace → ℚ) (sortFn : List Row → List Row)
    (args : Args) (stored : Option CacheDb) (remote : List RemotePlace) (fetchOk : Bool)
    (h : ¬(-90 ≤ args.latitude ∧ args.latitude ≤ 90) ∨
      ¬(-180 ≤ args.longitude ∧ args.longitude ≤ 180) ∨ args.radius ≤ 0) :
    main_run hav euc sortFn args stored remote fetchOk = ⟨1, none, stored, []⟩ :=
  main_run_invalid hav euc sortFn args stored remote fetchOk h

/-- Witness for C4: latitude 95 (the spec's invalid-input scenario). -/
theorem c4_validation_before_io_witness :
    main_run havConst eucConst stdSort argsBadLat (some dbReady) [] true =
      ⟨1, none, some dbReady, []⟩ :=
  c4_validation_before_io havConst eucConst stdSort argsBadLat (some dbReady) [] true
    (Or.inl (by decide))

/-- C5: the cache state machine of `load_overture_data`. READY and no
reload: the stored database is served unchanged with an empty effect trace
(no remote fetch). ABSENT (no `dubai_places` table) or forced reload, with
the fetch succeeding: exactly one remote fetch happens, and the
`dubai_places` table afterwards holds precisely the remote records passing
the fixed bounding-region predicate. -/
theorem c5_cache_state_machine (stored : Option CacheDb) (force_reload : Bool)
    (remote : List RemotePlace) (fetchOk : Bool) :
    (has_dubai_places (stored.getD ⟨[]⟩) = true ∧ force_reload = false →
      load_overture_data stored force_reload remote fetchOk =
        ⟨true, stored.getD ⟨[]⟩, []⟩) ∧
    ((has_dubai_places (stored.getD ⟨[]⟩) = false ∨ force_reload = true) →
      fetchOk = true →
      (load_overture_data stored force_reload remote fetchOk).effects =
        [Effect.remoteFetch] ∧
      getTable (load_overture_data stored force_reload remote fetchOk).db "dubai_places" =
        some ((remote.filter bbox_ok).map RemotePlace.place)) := by
  constructor
  · rintro ⟨h1, h2⟩
    unfold load_overture_data
    simp [h1, h2]
  · rintro h rfl
    have hcond : (has_dubai_places (stored.getD ⟨[]⟩) && !force_reload) = false := by
      rcases h with h | h <;> simp [h]
    unfold load_overture_data
    simp [hcond, getTable, setTable, List.lookup]

/-- Witness for C5: a READY cache is served with no fetch; an empty cache
triggers a fetch whose persisted table is the bbox-filtered remote set. -/
theorem c5_cache_state_machine_witness :
    load_overture_data (some dbReady) false [remoteIn, remoteOut] true =
      ⟨true, dbReady, []⟩ ∧
    (load_overture_data none false [remoteIn, remoteOut] true).effects =
      [Effect.remoteFetch] ∧
    getTable (load_overture_data none false [remoteIn, remoteOut] true).db "dubai_places" =
      some (([remoteIn, remoteOut].filter bbox_ok).map RemotePlace.place) :=
  ⟨(c5_cache_state_machine (some dbReady) false [remoteIn, remoteOut] true).1
      ⟨by decide, rfl⟩,
    (c5_cache_state_machine none false [remoteIn, remoteOut] true).2
      (Or.inl (by decide)) rfl⟩

/-- C7: with a READY cache whose table has no point within the radius, the
run is not an error: exit code 0, the output file is written with the
header row only (zero data rows), and the category summary is empty. -/
theorem c7_empty_result_ok (hav euc : RawPlace → ℚ) (sortFn : List Row → List Row)
    (hs : SortValuesOk sortFn) (args : Args) (db : CacheDb) (tbl : List RawPlace)
    (remote : List RemotePlace) (fetchOk : Bool)
    (hlat : -90 ≤ args.latitude ∧ args.latitude ≤ 90)
    (hlon : -180 ≤ args.longitude ∧ args.longitude ≤ 180)
    (hrad : 0 < args.radius) (hrel : args.reload = false)
    (htbl : getTable db "dubai_places" = some tbl)
    (hnone : ∀ p ∈ tbl, ¬ hav p ≤ args.radius * 1000) :
    (main_run hav euc sortFn args (some db) remote fetchOk).exitCode = 0 ∧
    (main_run hav euc sortFn args (some db) remote fetchOk).written =
      some (args.output, [csv_header]) ∧
    value_counts (pipeline hav euc sortFn args.radius tbl) = [] := by
  have hpipe := pipeline_eq_nil hav euc sortFn hs args.radius tbl hnone
  have hm := main_run_ready hav euc sortFn args db tbl remote fetchOk
    hlat hlon hrad hrel htbl
  refine ⟨by rw [hm], by rw [hm, hpipe]; rfl, by rw [hpipe]; rfl⟩

/-- Witness for C7: both fixture places are 5000 m away, farther than the
1 km radius of these arguments. -/
theorem c7_empty_result_ok_witness :
    (main_run havConst eucConst stdSort
        ⟨25.166974, 55.259068, 1, "o.csv", "d.duckdb", false⟩
        (some dbReady) [] true).exitCode = 0 ∧
    (main_run havConst eucConst stdSort
        ⟨25.166974, 55.259068, 1, "o.csv", "d.duckdb", false⟩
        (some dbReady) [] true).written = some ("o.csv", [csv_header]) ∧
    value_counts (pipeline havConst eucConst stdSort
      (Args.radius ⟨25.166974, 55.259068, 1, "o.csv", "d.duckdb", false⟩)
      [placeA, placeB]) = [] :=
  c7_empty_result_ok havConst eucConst stdSort stdSort_ok
    ⟨25.166974, 55.259068, 1, "o.csv", "d.duckdb", false⟩ dbReady [placeA, placeB] [] true
    (by decide) (by decide) (by decide) rfl (by decide) (by decide)

/-- C8: with `reload = false` and an already-populated cache, one `main`
run leaves the on-disk cache exactly as it found it, and a second run on
the resulting state is equal outcome-for-outcome (in particular its written
CSV is identical) — cache reads are idempotent and the pipeline is a pure
function of the cache contents and parameters. -/
theorem c8_idempotent_reads (hav euc : RawPlace → ℚ) (sortFn : List Row → List Row)
    (args : Args) (db : CacheDb) (tbl : List RawPlace) (remote : List RemotePlace)
    (fetchOk : Bool) (hrel : args.reload = false)
    (htbl : getTable db "dubai_places" = some tbl) :
    (main_run hav euc sortFn args (some db) remote fetchOk).finalDb = some db ∧
    main_run hav euc sortFn args
        ((main_run hav euc sortFn args (some db) remote fetchOk).finalDb) remote fetchOk =
      main_run hav euc sortFn args (some db) remote fetchOk := by
  have hfin : (main_run hav euc sortFn args (some db) remote fetchOk).finalDb = some db := by
    by_cases h1 : ¬(-90 ≤ args.latitude ∧ args.latitude ≤ 90)
    · rw [main_run_invalid hav euc sortFn args (some db) remote fetchOk (Or.inl h1)]
    · by_cases h2 : ¬(-180 ≤ args.longitude ∧ args.longitude ≤ 180)
      · rw [main_run_invalid hav euc sortFn args (some db) remote fetchOk (Or.inr (Or.inl h2))]
      · by_cases h3 : args.radius ≤ 0
        · rw [main_run_invalid hav euc sortFn args (some db) remote fetchOk
            (Or.inr (Or.inr h3))]
        · rw [main_run_ready hav euc sortFn args db tbl remote fetchOk
            (not_not.mp h1) (not_not.mp h2) (not_le.mp h3) hrel htbl]
  exact ⟨hfin, by rw [hfin]⟩

/-- Witness for C8 at a concrete populated cache. -/
theorem c8_idempotent_reads_witness :
    (main_run havConst eucConst stdSort argsOk (some dbReady) [] true).finalDb =
      some dbReady ∧
    main_run havConst eucConst stdSort argsOk
        ((main_run havConst eucConst stdSort argsOk (some dbReady) [] true).finalDb) [] true =
      main_run havConst eucConst stdSort argsOk (some dbReady) [] true :=
  c8_idempotent_reads havConst eucConst stdSort argsOk dbReady [placeA, placeB] [] true
    rfl (by decide)

/-- C10: with `--reload`, an existing cache file and valid arguments, a
failing remote fetch leaves the run with exit code 1, nothing written, an
effect trace in which the deletion of the old cache file precedes the
remote fetch, and a final database holding no `dubai_places` table — the
previously READY cache is not preserved. -/
theorem c10_reload_delete_precedes_fetch (hav euc : RawPlace → ℚ)
    (sortFn : List Row → List Row) (args : Args) (db : CacheDb)
    (remote : List RemotePlace)
    (hlat : -90 ≤ args.latitude ∧ args.latitude ≤ 90)
    (hlon : -180 ≤ args.longitude ∧ args.longitude ≤ 180)
    (hrad : 0 < args.radius) (hrel : args.reload = true) :
    main_run hav euc sortFn args (some db) remote false =
      ⟨1, none, some ⟨[]⟩, [Effect.deleteFile args.database, Effect.remoteFetch]⟩ ∧
    getTable (⟨[]⟩ : CacheDb) "dubai_places" = none := by
  refine ⟨?_, rfl⟩
  unfold main_run
  rw [if_neg (not_not_intro hlat), if_neg (not_not_intro hlon), if_neg (not_le.mpr hrad)]
  unfold extract_nearby_places load_overture_data
  simp [hrel, has_dubai_places]

/-- Witness for C10 at a concrete READY cache. -/
theorem c10_reload_delete_precedes_fetch_witness :
    main_run havConst eucConst stdSort argsReload (some dbReady) [remoteIn] false =
      ⟨1, none, some ⟨[]⟩,
        [Effect.deleteFile "overture_dubai.duckdb", Effect.remoteFetch]⟩ ∧
    getTable (⟨[]⟩ : CacheDb) "dubai_places" = none :=
  c10_reload_delete_precedes_fetch havConst eucConst stdSort argsReload dbReady [remoteIn]
    (by decide) (by decide) (by decide) rfl


/-- A bounding region: the fixed min/max longitude (`x`) and latitude (`y`)
rectangle a variant's bulk query restricts to. -/
structure BBoxRegion where
  xmin : ℚ
  xmax : ℚ
  ymin : ℚ
  ymax : ℚ
deriving Repr, DecidableEq

/-- A source variant: the bounding region it materializes and the cache
table name it persists that region under. -/
structure RegionVariant where
  region : BBoxRegion
  tableName : String
deriving Repr, DecidableEq

/-- The variant implemented by `src/extract_pois.py`: the Dubai bounding
region (54.9-55.6 east, 24.7-25.4 north), persisted as `dubai_places`. -/
def dubaiVariant : RegionVariant :=
  ⟨⟨549/10, 556/10, 247/10, 254/10⟩, "dubai_places"⟩

/-- Modelled from the spec: the repository's second near-duplicate source
variant is not under `src/`; per the spec's design notes it differs from
the Dubai variant "only in region bounds and table names". Persisting a
variant's region uses the same `CREATE OR REPLACE TABLE` semantics
(`setTable`) as `load_overture_data`. -/
def materialize_variant (db : CacheDb) (v : RegionVariant) (rows : List RawPlace) : CacheDb :=
  ⟨setTable db.tables v.tableName rows⟩

/-- C6: the cached point table is persisted under a table name scoped to
the bounding region: materializing the Dubai variant and any variant with a
different table name (per the spec, a different region carries a different
table name) into one storage location leaves both tables intact — no
collision. -/
theorem c6_region_scoped_no_collision (v : RegionVariant) (rows_d rows_v : List RawPlace)
    (hname : v.tableName ≠ dubaiVariant.tableName) :
    getTable (materialize_variant (materialize_variant ⟨[]⟩ dubaiVariant rows_d) v rows_v)
        dubaiVariant.tableName = some rows_d ∧
    getTable (materialize_variant (materialize_variant ⟨[]⟩ dubaiVariant rows_d) v rows_v)
        v.tableName = some rows_v := by
  have hne : ("dubai_places" != v.tableName) = true :=
    bne_iff_ne.mpr (fun hh => hname hh.symm)
  have hne3 : ("dubai_places" == v.tableName) = false := by
    simpa [bne] using hne
  constructor
  · simp [materialize_variant, setTable, getTable, dubaiVariant, List.lookup,
      List.filter, hne, hne3]
  · simp [materialize_variant, setTable, getTable, List.lookup]

/-- Witness for C6 with a concrete second variant. -/
theorem c6_region_scoped_no_collision_witness :
    getTable (materialize_variant
        (materialize_variant ⟨[]⟩ dubaiVariant [placeA]) ⟨⟨0, 1, 0, 1⟩, "other_places"⟩ [placeB])
        dubaiVariant.tableName = some [placeA] ∧
    getTable (materialize_variant
        (materialize_variant ⟨[]⟩ dubaiVariant [placeA]) ⟨⟨0, 1, 0, 1⟩, "other_places"⟩ [placeB])
        (RegionVariant.tableName ⟨⟨0, 1, 0, 1⟩, "other_places"⟩) = some [placeB] :=
  c6_region_scoped_no_collision ⟨⟨0, 1, 0, 1⟩, "other_places"⟩ [placeA] [placeB] (by decide)

end PoiExtract
